import Mathlib

/-!
Shallow embedding of `src/gns3/progress.py` (class `Progress`), the modal
progress-dialog controller of the gns3-gui repository.

Python objects are modelled as follows:

* A query record (`{"explanation": ..., "current": ..., "maximum": ...,
  "response": ...}`) is a Python dict with dynamically typed values; it is
  embedded as an association list `Dict := List (String × Val)` preserving
  insertion order, exactly as CPython dicts do.  `Val` is the sum of the
  value types that actually flow through the module (strings, ints, and
  `QNetworkReply` handles, the latter identified by an opaque numeral).
* `self._queries` is a dict from query id to record: `List (String × Dict)`.
* The `QProgressDialog` widget is a record of the attributes this module
  reads or writes.  `wasCanceled` is the Qt flag queried by `show()`;
  user cancellation (clicking the cancel button) sets it and fires the
  `canceled` signal, which `__init__` connected to `_cancelSlot`
  (modelled by `userCancel`).  Each created dialog carries a fresh `id`
  so object identity (creation vs. reuse) is observable.
* Side effects on external collaborators are recorded in effect logs:
  `aborted` collects the arguments of `response.abort()` calls,
  `stimer_shots` the durations passed to `QTimer.singleShot`, and
  `destroyed` the dialogs on which `cancel()`/`deleteLater()` were called.
-/

namespace GNS3

/-- A dynamically typed Python value as used inside a query record. -/
inductive Val where
  | str (s : String)
  | int (n : Int)
  | resp (r : Nat)
deriving DecidableEq, Repr

/-- A Python dict with string keys, in insertion order. -/
abbrev Dict := List (String × Val)

/-- `d[k]` lookup: first (and for a real dict, only) binding of `k`. -/
def dictGet (d : Dict) (k : String) : Option Val :=
  match d with
  | [] => none
  | (k', v) :: rest => if k' = k then some v else dictGet rest k

/-- `d[k] = v`: replace the binding of `k` in place, or append it. -/
def dictSet (d : Dict) (k : String) (v : Val) : Dict :=
  match d with
  | [] => [(k, v)]
  | (k', v') :: rest => if k' = k then (k, v) :: rest else (k', v') :: dictSet rest k v

/-- `list(d.keys())`. -/
def dictKeys (d : Dict) : List String := d.map Prod.fst

/-- `self._queries`: dict from query id to query record, in insertion order. -/
abbrev Queries := List (String × Dict)

/-- `qs[k]` lookup on the queries dict. -/
def qLookup (qs : Queries) (k : String) : Option Dict :=
  match qs with
  | [] => none
  | (k', v) :: rest => if k' = k then some v else qLookup rest k

/-- `k in qs`. -/
def qContains (qs : Queries) (k : String) : Bool := (qLookup qs k).isSome

/-- `qs[k] = v`: replace in place or append. -/
def qSet (qs : Queries) (k : String) (v : Dict) : Queries :=
  match qs with
  | [] => [(k, v)]
  | (k', v') :: rest => if k' = k then (k, v) :: rest else (k', v') :: qSet rest k v

/-- `del qs[k]` (a no-op when `k` is absent; for dicts the key is unique). -/
def qDel (qs : Queries) (k : String) : Queries :=
  qs.filter (fun p => p.1 ≠ k)

/-- `len(qs)`. -/
def qLen (qs : Queries) : Nat := qs.length

/-- The attributes of a `QProgressDialog` that `progress.py` touches. -/
structure ProgressDialog where
  id : Nat
  wasCanceled : Bool
  labelText : Val
  maximum : Val
  value : Val
  minimumDuration : Int
  cancelButton : Option String
  cancelCalled : Bool
  deleteLaterCalled : Bool
  shown : Bool
deriving DecidableEq, Repr

/-- The state of a `Progress` controller object together with its effect
logs on external collaborators. -/
structure ProgressState where
  progress_dialog : Option ProgressDialog
  finished_query_during_display : Nat
  queries : Queries
  minimum_duration : Int
  cancel_button_text : String
  allow_cancel_query : Bool
  enable : Bool
  stimer_shots : List Int
  aborted : List Val
  destroyed : List ProgressDialog
  next_dialog_id : Nat
deriving DecidableEq, Repr

namespace ProgressState

/-- `Progress.__init__(min_duration=1000)`. -/
def init (min_duration : Int) : ProgressState :=
  { progress_dialog := none
    finished_query_during_display := 0
    queries := []
    minimum_duration := min_duration
    cancel_button_text := ""
    allow_cancel_query := false
    enable := true
    stimer_shots := []
    aborted := []
    destroyed := []
    next_dialog_id := 0 }

/-- The fresh `QProgressDialog("Waiting for server response", None, 0, 0, parent)`
built by `show()`, with the cancel-button and minimum-duration setup applied. -/
def mkDialog (s : ProgressState) : ProgressDialog :=
  { id := s.next_dialog_id
    wasCanceled := false
    labelText := Val.str "Waiting for server response"
    maximum := Val.int 0
    value := Val.int 0
    minimumDuration := s.minimum_duration
    cancelButton :=
      if s.cancel_button_text.length > 0 then some s.cancel_button_text else none
    cancelCalled := false
    deleteLaterCalled := false
    shown := false }

/-- The `setMaximum`/`setValue` update `show()` performs on a reused dialog. -/
def updateDialog (s : ProgressState) (d : ProgressDialog) : ProgressDialog :=
  if qLen s.queries + s.finished_query_during_display > 1 then
    { d with
      maximum := Val.int ((qLen s.queries + s.finished_query_during_display : Nat) : Int)
      value := Val.int (s.finished_query_during_display : Int) }
  else if qLen s.queries = 1 then
    match s.queries.head? with
    | some p =>
      { d with
        maximum := (dictGet p.2 "maximum").getD (Val.int 0)
        value := (dictGet p.2 "current").getD (Val.int 0) }
    | none => d
  else d

/-- The `setLabelText` step of `show()`: when at least one query is tracked,
the label becomes the first tracked query's explanation. -/
def setLabel (s : ProgressState) (d : ProgressDialog) : ProgressDialog :=
  match s.queries.head? with
  | some p => { d with labelText := (dictGet p.2 "explanation").getD (Val.int 0) }
  | none => d

/-- The branch of `show()` that builds a fresh dialog: store it, reset the
finished counter, and defer display with `singleShot(min_duration, ...)`. -/
def showNew (s : ProgressState) : ProgressState :=
  { s with
    progress_dialog := some (setLabel s (mkDialog s))
    finished_query_during_display := 0
    next_dialog_id := s.next_dialog_id + 1
    stimer_shots := s.stimer_shots ++ [s.minimum_duration] }

/-- `Progress.show()`. -/
def «show» (s : ProgressState) : ProgressState :=
  match s.progress_dialog with
  | none => showNew s
  | some d =>
    if d.wasCanceled then showNew s
    else { s with progress_dialog := some (setLabel s (updateDialog s d)) }

/-- `Progress.hide()`: drop the dialog reference, `cancel()` it (which makes
`wasCanceled()` true) and `deleteLater()` it. -/
def hide (s : ProgressState) : ProgressState :=
  match s.progress_dialog with
  | none => s
  | some d =>
    { s with
      progress_dialog := none
      destroyed :=
        s.destroyed ++ [{ d with cancelCalled := true, wasCanceled := true,
                                 deleteLaterCalled := true }] }

/-- `Progress._addQuerySlot(query_id, explanation, response)`. -/
def addQuerySlot (s : ProgressState) (query_id explanation : String)
    (response : Nat) : ProgressState :=
  «show» { s with
         queries := qSet s.queries query_id
           [("explanation", Val.str explanation), ("current", Val.int 0),
            ("maximum", Val.int 0), ("response", Val.resp response)] }

/-- `Progress._removeQuerySlot(query_id)`. -/
def removeQuerySlot (s : ProgressState) (query_id : String) : ProgressState :=
  let s1 := { s with
              finished_query_during_display := s.finished_query_during_display + 1 }
  let s2 := if qContains s1.queries query_id
            then { s1 with queries := qDel s1.queries query_id }
            else s1
  if qLen s2.queries = 0 then hide s2 else «show» s2

/-- `Progress._progressSlot(query_id, current, maximum)`. -/
def progressSlot (s : ProgressState) (query_id : String)
    (current maximum : Int) : ProgressState :=
  match qLookup s.queries query_id with
  | some q =>
    «show» { s with
           queries := qSet s.queries query_id
             (dictSet (dictSet q "current" (Val.int current))
               "maximum" (Val.int maximum)) }
  | none => s

/-- `Progress._cancelSlot()`: when query cancellation is allowed, call
`abort()` on the response of every tracked query, in dict order. -/
def cancelSlot (s : ProgressState) : ProgressState :=
  if s.allow_cancel_query then
    { s with
      aborted := s.aborted ++
        s.queries.map (fun p => (dictGet p.2 "response").getD (Val.int 0)) }
  else s

/-- The user clicking the dialog's cancel button: Qt sets `wasCanceled()` on
the dialog and fires the `canceled` signal, which `__init__` connected to
`_cancelSlot`. -/
def userCancel (s : ProgressState) : ProgressState :=
  match s.progress_dialog with
  | none => s
  | some d =>
    cancelSlot { s with progress_dialog := some { d with wasCanceled := true } }

/-- `Progress._show_dialog()`: show and exec the dialog if it still exists
and the controller is enabled. -/
def showDialog (s : ProgressState) : ProgressState :=
  match s.progress_dialog with
  | some d => if s.enable then { s with progress_dialog := some { d with shown := true } } else s
  | none => s

/-- `Progress.setAllowCancelQuery(allow_cancel_query)`. -/
def setAllowCancelQuery (s : ProgressState) (allow_cancel_query : Bool) : ProgressState :=
  { s with allow_cancel_query := allow_cancel_query }

/-- `Progress.setCancelButtonText(text)`. -/
def setCancelButtonText (s : ProgressState) (text : String) : ProgressState :=
  { s with cancel_button_text := text }

/-- The `**kwargs` accepted by `Progress.context`: each option is either
absent (`none`) or present with a value. -/
structure ContextKwargs where
  min_duration : Option Int := none
  enable : Option Bool := none
  cancel_button_text : Option String := none
  allow_cancel_query : Option Bool := none
deriving DecidableEq, Repr

/-- The entry phase of `Progress.context`: apply every passed option. -/
def applyKwargs (s : ProgressState) (kw : ContextKwargs) : ProgressState :=
  let s1 := match kw.min_duration with
            | some v => { s with minimum_duration := v }
            | none => s
  let s2 := match kw.enable with
            | some v => { s1 with enable := v }
            | none => s1
  let s3 := match kw.cancel_button_text with
            | some v => { s2 with cancel_button_text := v }
            | none => s2
  match kw.allow_cancel_query with
  | some v => { s3 with allow_cancel_query := v }
  | none => s3

/-- `Progress.context(**kwargs)` run over a block `body` that completes
normally: save the old value of each passed option, apply the option, run
the block, then restore the saved values (in the source's restore order:
`min_duration`, `enable`, `allow_cancel_query`, `cancel_button_text`). -/
def context (s : ProgressState) (kw : ContextKwargs)
    (body : ProgressState → ProgressState) : ProgressState :=
  let s5 := body (applyKwargs s kw)
  let s6 := match kw.min_duration with
            | some _ => { s5 with minimum_duration := s.minimum_duration }
            | none => s5
  let s7 := match kw.enable with
            | some _ => { s6 with enable := s.enable }
            | none => s6
  let s8 := match kw.allow_cancel_query with
            | some _ => { s7 with allow_cancel_query := s.allow_cancel_query }
            | none => s7
  match kw.cancel_button_text with
  | some _ => { s8 with cancel_button_text := s.cancel_button_text }
  | none => s8

end ProgressState

/-- A reference to a `Progress` object, identified by an opaque numeral so
that reference equality is observable. -/
structure ProgressRef where
  ref : Nat
deriving DecidableEq, Repr

/-- `Progress.instance()`: the class attribute `Progress._instance` is
`none` when unset (covering both `not hasattr` and `is None`); the first
call constructs a `Progress` (a fresh reference) and stores it, later calls
return the stored reference. -/
def instanceAccessor (inst : Option ProgressRef) (fresh : Nat) :
    ProgressRef × Option ProgressRef :=
  match inst with
  | none => (⟨fresh⟩, some ⟨fresh⟩)
  | some p => (p, some p)

/-- A query record has exactly the four fields written by `_addQuerySlot`. -/
def recWF (q : Dict) : Bool :=
  dictKeys q == ["explanation", "current", "maximum", "response"]

/-- Every tracked record is well-formed. -/
def queriesWF (qs : Queries) : Bool := qs.all (fun p => recWF p.2)

/-- The data-model invariant of the controller state. -/
def stateWF (s : ProgressState) : Bool := queriesWF s.queries

/-! ### Helper lemmas on the dict embeddings -/

theorem qLookup_qSet_self (qs : Queries) (k : String) (v : Dict) :
    qLookup (qSet qs k v) k = some v := by
  induction qs with
  | nil => simp [qSet, qLookup]
  | cons p rest ih =>
    by_cases h : p.1 = k
    · simp [qSet, qLookup, h]
    · simp [qSet, qLookup, h, ih]

theorem qLookup_qSet_ne (qs : Queries) (k k' : String) (v : Dict)
    (h : k' ≠ k) : qLookup (qSet qs k v) k' = qLookup qs k' := by
  have hne : k ≠ k' := Ne.symm h
  induction qs with
  | nil => simp [qSet, qLookup, hne]
  | cons p rest ih =>
    by_cases hp : p.1 = k
    · subst hp
      simp [qSet, qLookup, hne]
    · simp [qSet, qLookup, hp, ih]

theorem qContains_qDel_self (qs : Queries) (k : String) :
    qContains (qDel qs k) k = false := by
  induction qs with
  | nil => simp [qDel, qContains, qLookup]
  | cons p rest ih =>
    by_cases h : p.1 = k
    · simpa [qDel, h] using ih
    · simpa [qDel, qContains, qLookup, h] using ih

theorem qDel_of_not_contains (qs : Queries) (k : String)
    (h : qContains qs k = false) : qDel qs k = qs := by
  induction qs with
  | nil => rfl
  | cons p rest ih =>
    by_cases hp : p.1 = k
    · simp [qContains, qLookup, hp] at h
    · have hr : qContains rest k = false := by
        simpa [qContains, qLookup, hp] using h
      have hrest : qDel rest k = rest := ih hr
      simp [qDel, List.filter_cons, hp] at hrest ⊢
      exact hrest

theorem qLookup_mem (qs : Queries) (k : String) (q : Dict)
    (h : qLookup qs k = some q) : (k, q) ∈ qs := by
  induction qs with
  | nil => simp [qLookup] at h
  | cons p rest ih =>
    by_cases hp : p.1 = k
    · have hq : p.2 = q := by simpa [qLookup, hp] using h
      have hpq : p = (k, q) := by
        cases p with
        | mk a b => simp_all
      rw [hpq]
      exact List.mem_cons_self _ _
    · exact List.mem_cons_of_mem _ (ih (by simpa [qLookup, hp] using h))

theorem dictGet_dictSet_self (d : Dict) (k : String) (v : Val) :
    dictGet (dictSet d k v) k = some v := by
  induction d with
  | nil => simp [dictSet, dictGet]
  | cons p rest ih =>
    by_cases h : p.1 = k
    · simp [dictSet, dictGet, h]
    · simp [dictSet, dictGet, h, ih]

theorem dictGet_dictSet_ne (d : Dict) (k k' : String) (v : Val)
    (h : k' ≠ k) : dictGet (dictSet d k v) k' = dictGet d k' := by
  have hne : k ≠ k' := Ne.symm h
  induction d with
  | nil => simp [dictSet, dictGet, hne]
  | cons p rest ih =>
    by_cases hp : p.1 = k
    · subst hp
      simp [dictSet, dictGet, hne]
    · simp [dictSet, dictGet, hp, ih]

theorem dictKeys_dictSet_of_mem (d : Dict) (k : String) (v : Val)
    (h : k ∈ dictKeys d) : dictKeys (dictSet d k v) = dictKeys d := by
  induction d with
  | nil => simp [dictKeys] at h
  | cons p rest ih =>
    by_cases hp : p.1 = k
    · simp [dictSet, dictKeys, hp]
    · have hk : k ∈ dictKeys rest := by
        have hmem := h
        simp only [dictKeys, List.map_cons, List.mem_cons] at hmem
        rcases hmem with h1 | h1
        · exact absurd h1.symm hp
        · simpa [dictKeys] using h1
      calc dictKeys (dictSet (p :: rest) k v)
          = p.1 :: dictKeys (dictSet rest k v) := by simp [dictSet, dictKeys, hp]
        _ = p.1 :: dictKeys rest := by rw [ih hk]
        _ = dictKeys (p :: rest) := by simp [dictKeys]

/-! ### Frame lemmas: which fields each operation leaves alone -/

namespace ProgressState

@[simp] theorem showNew_queries (s : ProgressState) : (showNew s).queries = s.queries := rfl

@[simp] theorem show_queries (s : ProgressState) : («show» s).queries = s.queries := by
  unfold «show»
  cases hd : s.progress_dialog with
  | none => rfl
  | some d => by_cases hc : d.wasCanceled <;> simp [hc, showNew]

@[simp] theorem hide_queries (s : ProgressState) : s.hide.queries = s.queries := by
  unfold hide
  cases s.progress_dialog <;> rfl

@[simp] theorem cancelSlot_queries (s : ProgressState) :
    s.cancelSlot.queries = s.queries := by
  unfold cancelSlot
  by_cases h : s.allow_cancel_query <;> simp [h]

@[simp] theorem hide_finished (s : ProgressState) :
    s.hide.finished_query_during_display = s.finished_query_during_display := by
  unfold hide
  cases s.progress_dialog <;> rfl

@[simp] theorem setLabel_maximum (s : ProgressState) (d : ProgressDialog) :
    (setLabel s d).maximum = d.maximum := by
  unfold setLabel
  cases s.queries.head? <;> rfl

@[simp] theorem setLabel_value (s : ProgressState) (d : ProgressDialog) :
    (setLabel s d).value = d.value := by
  unfold setLabel
  cases s.queries.head? <;> rfl

@[simp] theorem setLabel_id (s : ProgressState) (d : ProgressDialog) :
    (setLabel s d).id = d.id := by
  unfold setLabel
  cases s.queries.head? <;> rfl

@[simp] theorem updateDialog_id (s : ProgressState) (d : ProgressDialog) :
    (updateDialog s d).id = d.id := by
  unfold updateDialog
  split
  · rfl
  split
  · split <;> rfl
  · rfl

/-- In `_removeQuerySlot`, the queries dict always ends up as `qDel` of the
original (deleting an absent key is the identity). -/
theorem removeQuerySlot_queries (s : ProgressState) (query_id : String) :
    (s.removeQuerySlot query_id).queries = qDel s.queries query_id := by
  unfold removeQuerySlot
  by_cases hc : qContains s.queries query_id
  · simp only [hc, if_true]
    by_cases hl : qLen (qDel s.queries query_id) = 0 <;> simp [hl]
  · simp only [hc]
    rw [qDel_of_not_contains _ _ (by simpa using hc)]
    by_cases hl : qLen s.queries = 0 <;> simp [hl]

end ProgressState



theorem qLookup_eq_none_of_not_contains (qs : Queries) (k : String)
    (h : qContains qs k = false) : qLookup qs k = none := by
  unfold qContains at h
  cases hx : qLookup qs k with
  | none => rfl
  | some q => rw [hx] at h; simp at h

theorem queriesWF_mem (qs : Queries) (p : String × Dict)
    (hwf : queriesWF qs = true) (hm : p ∈ qs) : recWF p.2 = true := by
  simp only [queriesWF, List.all_eq_true] at hwf
  exact hwf p hm

theorem queriesWF_qSet (qs : Queries) (k : String) (v : Dict)
    (hwf : queriesWF qs = true) (hv : recWF v = true) :
    queriesWF (qSet qs k v) = true := by
  induction qs with
  | nil => simp [qSet, queriesWF, hv]
  | cons p rest ih =>
    simp only [queriesWF, List.all_cons, Bool.and_eq_true] at hwf
    by_cases hp : p.1 = k
    · simp [qSet, hp, queriesWF, hv, hwf.2]
    · have hr := ih hwf.2
      simp [qSet, hp, queriesWF, hwf.1] at hr ⊢
      exact hr

theorem queriesWF_qDel (qs : Queries) (k : String)
    (hwf : queriesWF qs = true) : queriesWF (qDel qs k) = true := by
  simp only [queriesWF, List.all_eq_true] at hwf ⊢
  intro p hp
  exact hwf p (List.mem_of_mem_filter hp)

theorem recWF_keys (q : Dict) (h : recWF q = true) :
    dictKeys q = ["explanation", "current", "maximum", "response"] := by
  simpa [recWF] using h

theorem recWF_progressUpdate (q : Dict) (a b : Val) (h : recWF q = true) :
    recWF (dictSet (dictSet q "current" a) "maximum" b) = true := by
  have hk := recWF_keys q h
  have h1 : dictKeys (dictSet q "current" a) = dictKeys q :=
    dictKeys_dictSet_of_mem _ _ _ (by rw [hk]; simp)
  have h2 : dictKeys (dictSet (dictSet q "current" a) "maximum" b) = dictKeys q := by
    rw [dictKeys_dictSet_of_mem _ _ _ (by rw [h1, hk]; simp), h1]
  simp [recWF, h2, hk]

/-! ### Claim theorems -/

/-- C10: `Progress.instance()` is a singleton accessor: the first call
constructs a `Progress` object and stores it in the class attribute, and
every subsequent call returns that same object, so the references returned
by any two successive calls are equal (and the stored instance is
unchanged by the second call). -/
theorem c10_instance_singleton (inst : Option ProgressRef) (f1 f2 : Nat) :
    (instanceAccessor ((instanceAccessor inst f1).2) f2).1 =
      (instanceAccessor inst f1).1 ∧
    (instanceAccessor ((instanceAccessor inst f1).2) f2).2 =
      (instanceAccessor inst f1).2 := by
  cases inst <;> simp [instanceAccessor]

/-- C1 (counterexample): the claim that running `_cancelSlot` always
forwards cancellation to every tracked query is false on the code: with the
constructor default `allow_cancel_query = False`, a controller tracking
query "q1" runs `_cancelSlot` without calling `abort()` on anything — the
abort log stays empty. -/
theorem c1_counterexample :
    qContains ((ProgressState.init 1000).addQuerySlot "q1" "e" 7).queries "q1" = true ∧
    ((ProgressState.init 1000).addQuerySlot "q1" "e" 7).allow_cancel_query = false ∧
    ((ProgressState.init 1000).addQuerySlot "q1" "e" 7).cancelSlot.aborted = [] := by
  decide

/-- C1 (amended): when `_allow_cancel_query` is enabled, `_cancelSlot`
forwards the cancellation to the external response object of every
currently tracked query by calling its `abort()` method. -/
theorem c1_cancel_aborts_all (s : ProgressState)
    (h : s.allow_cancel_query = true) :
    ∀ k q, qLookup s.queries k = some q →
      (dictGet q "response").getD (Val.int 0) ∈ s.cancelSlot.aborted := by
  intro k q hq
  have hm : (k, q) ∈ s.queries := qLookup_mem _ _ _ hq
  simp only [ProgressState.cancelSlot, h, if_true, List.mem_append]
  right
  exact List.mem_map.mpr ⟨(k, q), hm, rfl⟩

/-- C1 witness: a concrete controller with cancellation allowed and one
tracked query whose response 7 is aborted by `_cancelSlot`. -/
theorem c1_witness :
    ((((ProgressState.init 1000).addQuerySlot "q1" "e" 7).setAllowCancelQuery
        true).allow_cancel_query = true) ∧
    Val.resp 7 ∈ (((ProgressState.init 1000).addQuerySlot "q1" "e"
        7).setAllowCancelQuery true).cancelSlot.aborted := by
  constructor
  · rfl
  · have h := c1_cancel_aborts_all
      (((ProgressState.init 1000).addQuerySlot "q1" "e" 7).setAllowCancelQuery true)
      rfl "q1"
      [("explanation", Val.str "e"), ("current", Val.int 0),
       ("maximum", Val.int 0), ("response", Val.resp 7)] (by decide)
    have he : (dictGet [("explanation", Val.str "e"), ("current", Val.int 0),
       ("maximum", Val.int 0), ("response", Val.resp 7)] "response").getD (Val.int 0) =
       Val.resp 7 := by decide
    rw [he] at h
    exact h

/-- C4: `_addQuerySlot(query_id, explanation, response)` maps `query_id`
to a record holding the explanation text, a current progress of 0, a
maximum progress of 0, and the response as cancel handle, and leaves every
other query's entry unchanged. -/
theorem c4_add_creates_entry (s : ProgressState) (query_id explanation : String)
    (response : Nat) :
    qLookup (s.addQuerySlot query_id explanation response).queries query_id =
      some [("explanation", Val.str explanation), ("current", Val.int 0),
            ("maximum", Val.int 0), ("response", Val.resp response)] ∧
    ∀ k, k ≠ query_id →
      qLookup (s.addQuerySlot query_id explanation response).queries k =
        qLookup s.queries k := by
  constructor
  · simp only [ProgressState.addQuerySlot, ProgressState.show_queries]
    exact qLookup_qSet_self _ _ _
  · intro k hk
    simp only [ProgressState.addQuerySlot, ProgressState.show_queries]
    exact qLookup_qSet_ne _ _ _ _ hk

/-- C4 witness: creating query "a" on a fresh controller yields exactly the
expected record, and the lookup of the distinct id "b" is unchanged. -/
theorem c4_witness :
    qLookup ((ProgressState.init 1000).addQuerySlot "a" "e" 3).queries "a" =
      some [("explanation", Val.str "e"), ("current", Val.int 0),
            ("maximum", Val.int 0), ("response", Val.resp 3)] ∧
    qLookup ((ProgressState.init 1000).addQuerySlot "a" "e" 3).queries "b" =
      qLookup (ProgressState.init 1000).queries "b" :=
  ⟨(c4_add_creates_entry (ProgressState.init 1000) "a" "e" 3).1,
   (c4_add_creates_entry (ProgressState.init 1000) "a" "e" 3).2 "b" (by decide)⟩


/-- C6: for a tracked query id, `_progressSlot(query_id, current, maximum)`
updates that entry's current progress and maximum progress to the given
values and leaves the entry's explanation text and cancel handle
unchanged. -/
theorem c6_progress_updates_entry (s : ProgressState) (query_id : String)
    (q : Dict) (current maximum : Int)
    (hq : qLookup s.queries query_id = some q) :
    ∃ q', qLookup (s.progressSlot query_id current maximum).queries query_id =
        some q' ∧
      dictGet q' "current" = some (Val.int current) ∧
      dictGet q' "maximum" = some (Val.int maximum) ∧
      dictGet q' "explanation" = dictGet q "explanation" ∧
      dictGet q' "response" = dictGet q "response" := by
  refine ⟨dictSet (dictSet q "current" (Val.int current)) "maximum"
      (Val.int maximum), ?_, ?_, ?_, ?_, ?_⟩
  · simp only [ProgressState.progressSlot, hq, ProgressState.show_queries]
    exact qLookup_qSet_self _ _ _
  · rw [dictGet_dictSet_ne _ _ _ _ (by decide), dictGet_dictSet_self]
  · rw [dictGet_dictSet_self]
  · rw [dictGet_dictSet_ne _ _ _ _ (by decide),
        dictGet_dictSet_ne _ _ _ _ (by decide)]
  · rw [dictGet_dictSet_ne _ _ _ _ (by decide),
        dictGet_dictSet_ne _ _ _ _ (by decide)]

/-- C6 witness: updating tracked query "a" with progress 5 of 10 on a
concrete controller. -/
theorem c6_witness :
    qLookup ((ProgressState.init 1000).addQuerySlot "a" "e" 3).queries "a" =
      some [("explanation", Val.str "e"), ("current", Val.int 0),
            ("maximum", Val.int 0), ("response", Val.resp 3)] ∧
    ∃ q', qLookup (((ProgressState.init 1000).addQuerySlot "a" "e"
          3).progressSlot "a" 5 10).queries "a" = some q' ∧
      dictGet q' "current" = some (Val.int 5) ∧
      dictGet q' "maximum" = some (Val.int 10) ∧
      dictGet q' "explanation" =
        dictGet [("explanation", Val.str "e"), ("current", Val.int 0),
                 ("maximum", Val.int 0), ("response", Val.resp 3)] "explanation" ∧
      dictGet q' "response" =
        dictGet [("explanation", Val.str "e"), ("current", Val.int 0),
                 ("maximum", Val.int 0), ("response", Val.resp 3)] "response" :=
  ⟨by decide,
   c6_progress_updates_entry ((ProgressState.init 1000).addQuerySlot "a" "e" 3)
     "a" _ 5 10 (by decide)⟩

/-- C9 (counterexample): the claim that `_removeQuerySlot` with an untracked
id still increments the finished-query counter is false on the code: on a
controller whose dialog the user canceled while query "a" is still
tracked, `_removeQuerySlot("z")` ends with the counter at 0, not at the
old value plus one, because the subsequent `show()` builds a fresh dialog
and resets the counter. -/
theorem c9_counterexample :
    qContains (((ProgressState.init 1000).addQuerySlot "a" "e"
      1).userCancel).queries "z" = false ∧
    ((((ProgressState.init 1000).addQuerySlot "a" "e"
        1).userCancel).removeQuerySlot "z").finished_query_during_display ≠
      (((ProgressState.init 1000).addQuerySlot "a" "e"
        1).userCancel).finished_query_during_display + 1 := by
  decide

/-- C9 (amended): for an untracked query id, `_progressSlot` leaves the
whole controller state unchanged; `_removeQuerySlot` leaves the query
collection unchanged, and when the collection is empty it hides the dialog
and increments the finished-query counter; when the collection is
non-empty the increment survives only if a non-canceled dialog exists —
otherwise the `show()` it triggers creates a fresh dialog and resets the
counter to 0. -/
theorem c9_frame_absent_id (s : ProgressState) (query_id : String)
    (h : qContains s.queries query_id = false) :
    (∀ current maximum, s.progressSlot query_id current maximum = s) ∧
    (s.removeQuerySlot query_id).queries = s.queries ∧
    (qLen s.queries = 0 →
      (s.removeQuerySlot query_id).progress_dialog = none ∧
      (s.removeQuerySlot query_id).finished_query_during_display =
        s.finished_query_during_display + 1) ∧
    (qLen s.queries ≠ 0 →
      ((s.progress_dialog = none ∨
          ∃ d, s.progress_dialog = some d ∧ d.wasCanceled = true) →
        (s.removeQuerySlot query_id).finished_query_during_display = 0) ∧
      (∀ d, s.progress_dialog = some d → d.wasCanceled = false →
        (s.removeQuerySlot query_id).finished_query_during_display =
          s.finished_query_during_display + 1)) := by
  have hnone := qLookup_eq_none_of_not_contains _ _ h
  refine ⟨?_, ?_, ?_, ?_⟩
  · intro current maximum
    simp [ProgressState.progressSlot, hnone]
  · rw [ProgressState.removeQuerySlot_queries, qDel_of_not_contains _ _ h]
  · intro hlen
    have hred : s.removeQuerySlot query_id =
        ProgressState.hide
          { s with finished_query_during_display :=
              s.finished_query_during_display + 1 } := by
      simp [ProgressState.removeQuerySlot, h, hlen]
    rw [hred]
    cases hq : s.progress_dialog with
    | none => constructor <;> simp [ProgressState.hide, hq]
    | some d => constructor <;> simp [ProgressState.hide, hq]
  · intro hlen
    have hred : s.removeQuerySlot query_id =
        ProgressState.«show»
          { s with finished_query_during_display :=
              s.finished_query_during_display + 1 } := by
      simp [ProgressState.removeQuerySlot, h, hlen]
    constructor
    · rintro (hd | ⟨d, hd, hc⟩)
      · rw [hred]
        simp [ProgressState.«show», ProgressState.showNew, hd]
      · rw [hred]
        simp [ProgressState.«show», ProgressState.showNew, hd, hc]
    · intro d hd hc
      rw [hred]
      simp [ProgressState.«show», hd, hc]

/-- C9 witness: on an untracked id "z" of a concrete one-query controller
with a live (non-canceled) dialog, `_progressSlot` is a no-op and
`_removeQuerySlot` keeps the collection and increments the counter. -/
theorem c9_witness :
    qContains ((ProgressState.init 1000).addQuerySlot "a" "e" 1).queries "z"
      = false ∧
    ((ProgressState.init 1000).addQuerySlot "a" "e" 1).progressSlot "z" 4 9 =
      (ProgressState.init 1000).addQuerySlot "a" "e" 1 ∧
    (((ProgressState.init 1000).addQuerySlot "a" "e" 1).removeQuerySlot
        "z").queries =
      ((ProgressState.init 1000).addQuerySlot "a" "e" 1).queries := by
  refine ⟨by decide, ?_, ?_⟩
  · exact (c9_frame_absent_id ((ProgressState.init 1000).addQuerySlot "a" "e" 1)
      "z" (by decide)).1 4 9
  · exact (c9_frame_absent_id ((ProgressState.init 1000).addQuerySlot "a" "e" 1)
      "z" (by decide)).2.1


/-- C3: `_removeQuerySlot(query_id)` removes the query's entry from the
collection, and whenever the collection becomes empty the dialog is
destroyed: the controller's dialog reference is cleared and the dialog is
canceled and scheduled for deletion. -/
theorem c3_remove_destroys_when_empty (s : ProgressState) (query_id : String) :
    qContains (s.removeQuerySlot query_id).queries query_id = false ∧
    (qLen (qDel s.queries query_id) = 0 →
      (s.removeQuerySlot query_id).progress_dialog = none ∧
      ∀ d, s.progress_dialog = some d →
        ∃ d', (s.removeQuerySlot query_id).destroyed = s.destroyed ++ [d'] ∧
          d'.id = d.id ∧ d'.cancelCalled = true ∧
          d'.deleteLaterCalled = true) := by
  constructor
  · rw [ProgressState.removeQuerySlot_queries]
    exact qContains_qDel_self _ _
  · intro hlen
    have key : ∀ t : ProgressState, t.progress_dialog = s.progress_dialog →
        t.destroyed = s.destroyed →
        (ProgressState.hide t).progress_dialog = none ∧
        ∀ d, s.progress_dialog = some d →
          ∃ d', (ProgressState.hide t).destroyed = s.destroyed ++ [d'] ∧
            d'.id = d.id ∧ d'.cancelCalled = true ∧
            d'.deleteLaterCalled = true := by
      intro t ht hdes
      cases hq : s.progress_dialog with
      | none =>
        rw [hq] at ht
        refine ⟨by simp [ProgressState.hide, ht], ?_⟩
        intro d hd
        exact absurd hd (by simp)
      | some d =>
        rw [hq] at ht
        refine ⟨by simp [ProgressState.hide, ht], ?_⟩
        intro d0 hd0
        have hdd : d = d0 := Option.some.inj hd0
        subst hdd
        exact ⟨{ d with cancelCalled := true, wasCanceled := true, deleteLaterCalled := true },
               by simp [ProgressState.hide, ht, hdes], rfl, rfl, rfl⟩
    by_cases hc : qContains s.queries query_id = true
    · have hred : s.removeQuerySlot query_id =
          ProgressState.hide
            { s with finished_query_during_display := s.finished_query_during_display + 1,
                     queries := qDel s.queries query_id } := by
        simp [ProgressState.removeQuerySlot, hc, hlen]
      rw [hred]
      exact key _ rfl rfl
    · have hc' : qContains s.queries query_id = false := by simpa using hc
      have hq0 : qDel s.queries query_id = s.queries :=
        qDel_of_not_contains _ _ hc'
      have hlen' : qLen s.queries = 0 := by rw [← hq0]; exact hlen
      have hred : s.removeQuerySlot query_id =
          ProgressState.hide
            { s with finished_query_during_display := s.finished_query_during_display + 1 } := by
        simp [ProgressState.removeQuerySlot, hc', hlen']
      rw [hred]
      exact key _ rfl rfl

/-- C3 witness: removing the only query "a" of a concrete controller
empties the collection, clears the dialog reference and destroys the
dialog. -/
theorem c3_witness :
    qContains (((ProgressState.init 1000).addQuerySlot "a" "e"
        1).removeQuerySlot "a").queries "a" = false ∧
    (((ProgressState.init 1000).addQuerySlot "a" "e" 1).removeQuerySlot
        "a").progress_dialog = none := by
  refine ⟨(c3_remove_destroys_when_empty
    ((ProgressState.init 1000).addQuerySlot "a" "e" 1) "a").1, ?_⟩
  exact ((c3_remove_destroys_when_empty
    ((ProgressState.init 1000).addQuerySlot "a" "e" 1) "a").2 (by decide)).1

/-- C5: the controller holds at most one dialog (an optional reference);
`show()` constructs a fresh dialog exactly when none exists or the
existing one was canceled — resetting the finished-query counter to 0 and
deferring display with a one-shot timer of the configured minimum
duration — and otherwise reuses the existing dialog object, starting no
timer and minting no new dialog identity. -/
theorem c5_lazy_single_dialog (s : ProgressState) :
    ((s.progress_dialog = none ∨
        ∃ d, s.progress_dialog = some d ∧ d.wasCanceled = true) →
      ∃ pd, (ProgressState.«show» s).progress_dialog = some pd ∧
        pd.id = s.next_dialog_id ∧
        (ProgressState.«show» s).next_dialog_id = s.next_dialog_id + 1 ∧
        (ProgressState.«show» s).finished_query_during_display = 0 ∧
        (ProgressState.«show» s).stimer_shots =
          s.stimer_shots ++ [s.minimum_duration]) ∧
    (∀ d, s.progress_dialog = some d → d.wasCanceled = false →
      ∃ d', (ProgressState.«show» s).progress_dialog = some d' ∧
        d'.id = d.id ∧
        (ProgressState.«show» s).next_dialog_id = s.next_dialog_id ∧
        (ProgressState.«show» s).finished_query_during_display =
          s.finished_query_during_display ∧
        (ProgressState.«show» s).stimer_shots = s.stimer_shots) := by
  constructor
  · rintro (hd | ⟨d, hd, hc⟩)
    · exact ⟨ProgressState.setLabel s (ProgressState.mkDialog s),
        by simp [ProgressState.«show», ProgressState.showNew, hd],
        by simp [ProgressState.mkDialog],
        by simp [ProgressState.«show», ProgressState.showNew, hd],
        by simp [ProgressState.«show», ProgressState.showNew, hd],
        by simp [ProgressState.«show», ProgressState.showNew, hd]⟩
    · exact ⟨ProgressState.setLabel s (ProgressState.mkDialog s),
        by simp [ProgressState.«show», ProgressState.showNew, hd, hc],
        by simp [ProgressState.mkDialog],
        by simp [ProgressState.«show», ProgressState.showNew, hd, hc],
        by simp [ProgressState.«show», ProgressState.showNew, hd, hc],
        by simp [ProgressState.«show», ProgressState.showNew, hd, hc]⟩
  · intro d hd hc
    exact ⟨ProgressState.setLabel s (ProgressState.updateDialog s d),
      by simp [ProgressState.«show», hd, hc],
      by simp,
      by simp [ProgressState.«show», hd, hc],
      by simp [ProgressState.«show», hd, hc],
      by simp [ProgressState.«show», hd, hc]⟩

/-- C5 witness: on a fresh controller the first `show()` creates dialog 0,
zeroes the counter and starts the deferred-display timer; a second
`show()` on the resulting live dialog reuses it and starts no timer. -/
theorem c5_witness :
    (∃ pd, (ProgressState.«show» (ProgressState.init 1000)).progress_dialog =
        some pd ∧
      pd.id = (ProgressState.init 1000).next_dialog_id ∧
      (ProgressState.«show» (ProgressState.init 1000)).next_dialog_id =
        (ProgressState.init 1000).next_dialog_id + 1 ∧
      (ProgressState.«show» (ProgressState.init 1000)).finished_query_during_display = 0 ∧
      (ProgressState.«show» (ProgressState.init 1000)).stimer_shots =
        (ProgressState.init 1000).stimer_shots ++
          [(ProgressState.init 1000).minimum_duration]) ∧
    (∃ d', (ProgressState.«show» (ProgressState.«show»
        (ProgressState.init 1000))).progress_dialog = some d' ∧
      d'.id = 0 ∧
      (ProgressState.«show» (ProgressState.«show»
        (ProgressState.init 1000))).next_dialog_id =
        (ProgressState.«show» (ProgressState.init 1000)).next_dialog_id ∧
      (ProgressState.«show» (ProgressState.«show»
        (ProgressState.init 1000))).finished_query_during_display =
        (ProgressState.«show» (ProgressState.init 1000)).finished_query_during_display ∧
      (ProgressState.«show» (ProgressState.«show»
        (ProgressState.init 1000))).stimer_shots =
        (ProgressState.«show» (ProgressState.init 1000)).stimer_shots) := by
  constructor
  · exact (c5_lazy_single_dialog (ProgressState.init 1000)).1 (Or.inl rfl)
  · exact (c5_lazy_single_dialog
      (ProgressState.«show» (ProgressState.init 1000))).2
      { id := 0, wasCanceled := false,
        labelText := Val.str "Waiting for server response",
        maximum := Val.int 0, value := Val.int 0, minimumDuration := 1000,
        cancelButton := none, cancelCalled := false,
        deleteLaterCalled := false, shown := false }
      (by decide) rfl

/-- C2: a `show()` on an existing non-canceled dialog aggregates the
completion state: when the number of active queries plus the number of
queries finished during the current display exceeds one, the dialog's
maximum becomes that sum and its value the finished count; otherwise,
when exactly one query is active, the dialog's maximum and value become
that query's own maximum and current progress. -/
theorem c2_show_aggregates (s : ProgressState) (d : ProgressDialog)
    (hd : s.progress_dialog = some d) (hc : d.wasCanceled = false) :
    (qLen s.queries + s.finished_query_during_display > 1 →
      ∃ d', (ProgressState.«show» s).progress_dialog = some d' ∧
        d'.maximum = Val.int
          ((qLen s.queries + s.finished_query_during_display : Nat) : Int) ∧
        d'.value = Val.int (s.finished_query_during_display : Int)) ∧
    (¬ qLen s.queries + s.finished_query_during_display > 1 →
      qLen s.queries = 1 →
      ∃ p d', s.queries.head? = some p ∧
        (ProgressState.«show» s).progress_dialog = some d' ∧
        d'.maximum = (dictGet p.2 "maximum").getD (Val.int 0) ∧
        d'.value = (dictGet p.2 "current").getD (Val.int 0)) := by
  have hshow : ProgressState.«show» s =
      { s with progress_dialog := some (ProgressState.setLabel s (ProgressState.updateDialog s d)) } := by
    simp [ProgressState.«show», hd, hc]
  constructor
  · intro h1
    refine ⟨ProgressState.setLabel s (ProgressState.updateDialog s d),
      by simp [hshow], ?_, ?_⟩
    · rw [ProgressState.setLabel_maximum]
      simp [ProgressState.updateDialog, h1]
    · rw [ProgressState.setLabel_value]
      simp [ProgressState.updateDialog, h1]
  · intro h1 h2
    obtain ⟨p, hp⟩ : ∃ p, s.queries.head? = some p := by
      cases hqs : s.queries with
      | nil => rw [hqs] at h2; simp [qLen] at h2
      | cons a rest => exact ⟨a, rfl⟩
    have hf : s.finished_query_during_display = 0 := by
      rw [h2] at h1
      omega
    refine ⟨p, ProgressState.setLabel s (ProgressState.updateDialog s d),
      hp, by simp [hshow], ?_, ?_⟩
    · rw [ProgressState.setLabel_maximum]
      simp [ProgressState.updateDialog, h1, h2, hp, hf]
    · rw [ProgressState.setLabel_value]
      simp [ProgressState.updateDialog, h1, h2, hp, hf]

/-- C2 witness: with two active queries and no finished ones, `show()` on
the live dialog sets its maximum to 2 and its value to 0. -/
theorem c2_witness :
    qLen (((ProgressState.init 1000).addQuerySlot "a" "ea" 1).addQuerySlot
        "b" "eb" 2).queries +
      (((ProgressState.init 1000).addQuerySlot "a" "ea" 1).addQuerySlot
        "b" "eb" 2).finished_query_during_display > 1 ∧
    ∃ d', (ProgressState.«show» (((ProgressState.init 1000).addQuerySlot
        "a" "ea" 1).addQuerySlot "b" "eb" 2)).progress_dialog = some d' ∧
      d'.maximum = Val.int
        ((qLen (((ProgressState.init 1000).addQuerySlot "a" "ea"
            1).addQuerySlot "b" "eb" 2).queries +
          (((ProgressState.init 1000).addQuerySlot "a" "ea" 1).addQuerySlot
            "b" "eb" 2).finished_query_during_display : Nat) : Int) ∧
      d'.value = Val.int
        ((((ProgressState.init 1000).addQuerySlot "a" "ea" 1).addQuerySlot
          "b" "eb" 2).finished_query_during_display : Int) := by
  refine ⟨by decide, ?_⟩
  exact (c2_show_aggregates
    (((ProgressState.init 1000).addQuerySlot "a" "ea" 1).addQuerySlot
      "b" "eb" 2)
    { id := 0, wasCanceled := false, labelText := Val.str "ea",
      maximum := Val.int 2, value := Val.int 0, minimumDuration := 1000,
      cancelButton := none, cancelCalled := false,
      deleteLaterCalled := false, shown := false }
    (by decide) rfl).1 (by decide)


/-- C7: every operation of the controller preserves the data-model
invariant that the queries collection maps string query identifiers to
records with exactly the four fields explanation text, current progress,
maximum progress, and cancel handle. -/
theorem c7_ops_preserve_wf (s : ProgressState) (h : stateWF s = true) :
    (∀ query_id explanation response,
      stateWF (s.addQuerySlot query_id explanation response) = true) ∧
    (∀ query_id, stateWF (s.removeQuerySlot query_id) = true) ∧
    (∀ query_id current maximum,
      stateWF (s.progressSlot query_id current maximum) = true) ∧
    stateWF s.cancelSlot = true ∧
    stateWF (ProgressState.«show» s) = true ∧
    stateWF s.hide = true := by
  refine ⟨?_, ?_, ?_, ?_, ?_, ?_⟩
  · intro query_id explanation response
    simp only [stateWF, ProgressState.addQuerySlot, ProgressState.show_queries]
    exact queriesWF_qSet _ _ _ h (by simp [recWF, dictKeys])
  · intro query_id
    simp only [stateWF]
    rw [ProgressState.removeQuerySlot_queries]
    exact queriesWF_qDel _ _ h
  · intro query_id current maximum
    unfold ProgressState.progressSlot
    cases hx : qLookup s.queries query_id with
    | none => exact h
    | some q =>
      simp only [stateWF, ProgressState.show_queries]
      exact queriesWF_qSet _ _ _ h
        (recWF_progressUpdate _ _ _
          (queriesWF_mem _ _ h (qLookup_mem _ _ _ hx)))
  · simpa [stateWF] using h
  · simpa [stateWF] using h
  · simpa [stateWF] using h

/-- C7 witness: the fresh controller satisfies the invariant, and adding a
query (via the preservation theorem) keeps it. -/
theorem c7_witness :
    stateWF (ProgressState.init 1000) = true ∧
    stateWF ((ProgressState.init 1000).addQuerySlot "a" "e" 1) = true :=
  ⟨by decide,
   (c7_ops_preserve_wf (ProgressState.init 1000) (by decide)).1 "a" "e" 1⟩

/-- C8: for every combination of options passed to `context(**kwargs)`
around a block that completes normally, each setting whose option was
passed is restored to the exact value it had before the block, and each
setting whose option was not passed is exactly the value the block itself
left behind (context never touches it). -/
theorem c8_context_roundtrip (s : ProgressState) (kw : ProgressState.ContextKwargs)
    (body : ProgressState → ProgressState) :
    (kw.min_duration.isSome = true →
      (s.context kw body).minimum_duration = s.minimum_duration) ∧
    (kw.enable.isSome = true →
      (s.context kw body).enable = s.enable) ∧
    (kw.cancel_button_text.isSome = true →
      (s.context kw body).cancel_button_text = s.cancel_button_text) ∧
    (kw.allow_cancel_query.isSome = true →
      (s.context kw body).allow_cancel_query = s.allow_cancel_query) ∧
    (kw.min_duration = none →
      (s.context kw body).minimum_duration =
        (body (ProgressState.applyKwargs s kw)).minimum_duration) ∧
    (kw.enable = none →
      (s.context kw body).enable =
        (body (ProgressState.applyKwargs s kw)).enable) ∧
    (kw.cancel_button_text = none →
      (s.context kw body).cancel_button_text =
        (body (ProgressState.applyKwargs s kw)).cancel_button_text) ∧
    (kw.allow_cancel_query = none →
      (s.context kw body).allow_cancel_query =
        (body (ProgressState.applyKwargs s kw)).allow_cancel_query) := by
  rcases kw with ⟨md, en, cbt, acq⟩
  cases md <;> cases en <;> cases cbt <;> cases acq <;>
    simp [ProgressState.context, ProgressState.applyKwargs]

/-- C8 witness: passing only min_duration and allow_cancel_query around a
block that changes all four settings restores exactly those two and keeps
the block's values of the other two. -/
theorem c8_witness :
    (({ min_duration := some 5, allow_cancel_query := some true } :
        ProgressState.ContextKwargs).min_duration.isSome = true) ∧
    ((ProgressState.context (ProgressState.init 1000)
        { min_duration := some 5, allow_cancel_query := some true }
        (fun t => { t with minimum_duration := 99, enable := false, cancel_button_text := "x", allow_cancel_query := false })).minimum_duration =
      (ProgressState.init 1000).minimum_duration) ∧
    (({ min_duration := some 5, allow_cancel_query := some true } :
        ProgressState.ContextKwargs).enable = none) ∧
    ((ProgressState.context (ProgressState.init 1000)
        { min_duration := some 5, allow_cancel_query := some true }
        (fun t => { t with minimum_duration := 99, enable := false, cancel_button_text := "x", allow_cancel_query := false })).enable =
      ((fun t => ({ t with minimum_duration := 99, enable := false, cancel_button_text := "x", allow_cancel_query := false } : ProgressState))
        (ProgressState.applyKwargs (ProgressState.init 1000)
          { min_duration := some 5, allow_cancel_query := some true })).enable) := by
  refine ⟨rfl, ?_, rfl, ?_⟩
  · exact (c8_context_roundtrip (ProgressState.init 1000)
      { min_duration := some 5, allow_cancel_query := some true }
      (fun t => { t with minimum_duration := 99, enable := false, cancel_button_text := "x", allow_cancel_query := false })).1 rfl
  · exact (c8_context_roundtrip (ProgressState.init 1000)
      { min_duration := some 5, allow_cancel_query := some true }
      (fun t => { t with minimum_duration := 99, enable := false, cancel_button_text := "x", allow_cancel_query := false })).2.2.2.2.2.1 rfl

end GNS3
